import Mathlib

/-!
Shallow embedding of `src/pydantic_database_helpers/query_helper.py`
(class `OracleQueryHelper`) and proofs about its five query generators.

A pydantic model class is embedded as a `Model`: the optional
`__TABLE_NAME__` class attribute, the class `__name__`, and the ordered
list of declared field names (the keys of `model_fields`, which for the
models of this package coincide with the non-dunder keys of
`__annotations__` in declaration order).

Python exceptions are embedded as an error type: `AttributeError`
(the spec's `SchemaError`) and `ValueError` (the spec's
`ValidationError` / `InvalidFilterError`), each carrying its message.
Each generator returns `Except PyError String`.

Python's `str.strip()` is embedded over the character list using
`Char.isWhitespace` (space, tab, CR, LF — the whitespace that actually
occurs in generated SQL), `sep.join(xs)` as `pyJoin`, the substring
test `a in b` as list infixity on the character lists, and the
truthiness test `if where:` on an `Optional[str]` as `pyTruthy`.
-/

deriving instance DecidableEq for Except

namespace PydanticDBH

/-- Embedded Python exceptions raised by `query_helper.py`:
`AttributeError` and `ValueError`, with their message strings. -/
inductive PyError where
  | attributeError (msg : String)
  | valueError (msg : String)
deriving DecidableEq, Repr

/-- Embedding of a pydantic model class: `tableName?` is the optional
`__TABLE_NAME__` class attribute, `name` is `__name__`, and `fields` is
the ordered list of declared field names. -/
structure Model where
  tableName? : Option String
  name : String
  fields : List String
deriving DecidableEq, Repr

/-- `MISSING_TABLE_NAME_ATTR_MSG` from `query_helper.py`. -/
def MISSING_TABLE_NAME_ATTR_MSG : String :=
  "The model must have a __TABLE_NAME__ attribute."

/-- `EMPTY_USING_MSG` from `query_helper.py`. -/
def EMPTY_USING_MSG : String := "No fields specified in 'using'."

/-- The message of the `AttributeError` Python itself raises on
`model.__TABLE_NAME__` when the class attribute is absent. -/
def pyMissingAttrMsg (n : String) : String :=
  "type object " ++ "'" ++ n ++ "'" ++ " has no attribute " ++ "'__TABLE_NAME__'"

/-- Bare attribute access `model.__TABLE_NAME__` (used by
`generate_insert_query`, which does not wrap the `AttributeError`). -/
def rawTableName (model : Model) : Except PyError String :=
  match model.tableName? with
  | some t => .ok t
  | none => .error (.attributeError (pyMissingAttrMsg model.name))

/-- The `try: model.__TABLE_NAME__ except AttributeError: raise
AttributeError(MISSING_TABLE_NAME_ATTR_MSG)` pattern shared by the
upsert/delete/update/select generators. -/
def tableNameOrMsg (model : Model) : Except PyError String :=
  match model.tableName? with
  | some t => .ok t
  | none => .error (.attributeError MISSING_TABLE_NAME_ATTR_MSG)

/-- Python `sep.join(xs)`. -/
def pyJoin (sep : String) : List String → String
  | [] => ""
  | [x] => x
  | x :: y :: xs => x ++ sep ++ pyJoin sep (y :: xs)

/-- Python `s.strip()`: drop leading and trailing whitespace. -/
def pyStrip (s : String) : String :=
  ⟨((s.data.dropWhile Char.isWhitespace).reverse.dropWhile Char.isWhitespace).reverse⟩

/-- Python `s.lower()` (ASCII case mapping, which covers every character
of the denylist and of SQL keywords). -/
def pyLower (s : String) : String := ⟨s.data.map Char.toLower⟩

/-- Boolean substring test on character lists: some tail of `l` starts
with `p`. -/
def listInfixOf (p : List Char) : List Char → Bool
  | [] => p.isEmpty
  | b :: bs => p.isPrefixOf (b :: bs) || listInfixOf p bs

/-- Python substring test `pat in s` on strings. -/
def pyInStr (pat s : String) : Bool := listInfixOf pat.data s.data

/-- Python `s.startswith(pre)`. -/
def pyStartsWith (s pre : String) : Bool := pre.data.isPrefixOf s.data

/-- Python truthiness of an `Optional[str]`: `None` and `""` are falsy. -/
def pyTruthy : Option String → Bool
  | none => false
  | some s => !s.isEmpty

/-- The string value of an `Optional[str]` (only read when truthy). -/
def optStr : Option String → String
  | none => ""
  | some s => s

/-- `OracleQueryHelper.generate_insert_query`.  The source iterates the
keys of `model.__annotations__`, skipping dunder names (such as an
annotated `__TABLE_NAME__: ClassVar[str]`), and collects the column and
placeholder lists in one pass. -/
def generate_insert_query (model : Model) : Except PyError String :=
  match rawTableName model with
  | .error e => .error e
  | .ok table_name =>
    let columns := model.fields.filter (fun field => !pyStartsWith field "__")
    let placeholders := columns.map (fun field => ":" ++ field)
    let columns_str := pyJoin ", " columns
    let placeholders_str := pyJoin ", " placeholders
    .ok ("INSERT INTO " ++ table_name ++ " (" ++ columns_str ++ ") VALUES (" ++
      placeholders_str ++ ")")

/-- `OracleQueryHelper.generate_upsert_query`.  The `for field in using`
membership loop raising at the first unknown field is embedded as
`List.find?`.  The multi-line f-string is reproduced verbatim, newlines
and indentation included (the source applies no `.strip()` here). -/
def generate_upsert_query (model : Model) (using_ : List String) : Except PyError String :=
  match tableNameOrMsg model with
  | .error e => .error e
  | .ok table_name =>
    if using_.length = 0 then .error (.valueError EMPTY_USING_MSG)
    else
      let columns := model.fields
      match using_.find? (fun field => !columns.contains field) with
      | some field =>
        .error (.valueError ("The field " ++ "'" ++ field ++ "'" ++
          " does not exist in the model " ++ model.name))
      | none =>
        let key_conditions := pyJoin " AND "
          (using_.map (fun field => table_name ++ "." ++ field ++ " = src." ++ field))
        let set_clause := pyJoin ", "
          ((columns.filter (fun column => !using_.contains column)).map
            (fun column => column ++ " = :" ++ column))
        let insert_clause := pyJoin ", " columns
        let values_clause := pyJoin ", " (columns.map (fun column => ":" ++ column))
        let src_cols := pyJoin ", "
          (using_.map (fun field => ":" ++ field ++ " as " ++ field))
        .ok ("\n            MERGE INTO " ++ table_name ++ " USING (SELECT " ++ src_cols ++
          " FROM dual) src\n            ON (" ++ key_conditions ++
          ")\n            WHEN MATCHED THEN\n                UPDATE SET " ++ set_clause ++
          "\n            WHEN NOT MATCHED THEN\n                INSERT (" ++ insert_clause ++
          ")\n                VALUES (" ++ values_clause ++ ")\n            ")

/-- `OracleQueryHelper.generate_delete_query`. -/
def generate_delete_query (model : Model) (using_ : List String) : Except PyError String :=
  match tableNameOrMsg model with
  | .error e => .error e
  | .ok table_name =>
    if using_.length = 0 then .error (.valueError EMPTY_USING_MSG)
    else
      let where_conditions := pyJoin " AND "
        (using_.map (fun field => table_name ++ "." ++ field ++ " = :" ++ field))
      .ok (pyStrip ("DELETE FROM " ++ table_name ++ " WHERE " ++ where_conditions))

/-- `OracleQueryHelper.generate_update_query`. -/
def generate_update_query (model : Model) (using_ : List String) : Except PyError String :=
  match tableNameOrMsg model with
  | .error e => .error e
  | .ok table_name =>
    if using_.length = 0 then .error (.valueError EMPTY_USING_MSG)
    else
      let fields := model.fields
      let fields_to_update := fields.filter (fun field => !using_.contains field)
      if fields_to_update.isEmpty then
        .error (.valueError "No fields to update after excluding 'using' fields.")
      else
        let set_clause := pyJoin ", "
          (fields_to_update.map (fun field => table_name ++ "." ++ field ++ " = :" ++ field))
        let where_conditions := pyJoin " AND "
          (using_.map (fun field => table_name ++ "." ++ field ++ " = :" ++ field))
        .ok (pyStrip ("UPDATE " ++ table_name ++ " SET " ++ set_clause ++ " WHERE " ++
          where_conditions))

/-- The `dangerous_patterns` denylist of `generate_select_query`. -/
def dangerous_patterns : List String :=
  [";", "--", "/*", "*/", "xp_", "exec", "drop", "select"]

/-- `OracleQueryHelper.generate_select_query`.  The denylist check runs
only when `where` is truthy; the WHERE clause is appended only when
`where` is truthy; the final query is `.strip()`ped. -/
def generate_select_query (model : Model) (whereClause : Option String) :
    Except PyError String :=
  match tableNameOrMsg model with
  | .error e => .error e
  | .ok table_name =>
    let columns := pyJoin ", " model.fields
    if pyTruthy whereClause &&
        dangerous_patterns.any
          (fun pattern => pyInStr (pyLower pattern) (pyLower (optStr whereClause))) then
      .error (.valueError ("Clause WHERE invalid : " ++ optStr whereClause))
    else
      let query := "SELECT " ++ columns ++ " FROM " ++ table_name
      let query :=
        if pyTruthy whereClause then query ++ " WHERE " ++ optStr whereClause else query
      .ok (pyStrip query)

/-! ### String facts used to discharge the `.strip()` calls -/

/-- The first character of `s` exists and is not whitespace. -/
def beginsOk (s : String) : Bool :=
  match s.data.head? with
  | some c => !c.isWhitespace
  | none => false

/-- The last character of `s` exists and is not whitespace. -/
def finishOk (s : String) : Bool :=
  match s.data.getLast? with
  | some c => !c.isWhitespace
  | none => false

theorem dropWhile_ws_eq_self {l : List Char}
    (h : ∀ c, l.head? = some c → c.isWhitespace = false) :
    l.dropWhile Char.isWhitespace = l := by
  cases l with
  | nil => rfl
  | cons a t => simp [List.dropWhile_cons, h a rfl]

theorem beginsOk_append (a b : String) (h : beginsOk a = true) :
    beginsOk (a ++ b) = true := by
  unfold beginsOk at *
  rw [String.data_append, List.head?_append]
  cases ha : a.data.head? with
  | none => rw [ha] at h; exact absurd h (by simp)
  | some c => rw [ha] at h; simpa [Option.or] using h

theorem finishOk_append (a b : String) (h : finishOk b = true) :
    finishOk (a ++ b) = true := by
  unfold finishOk at *
  rw [String.data_append, List.getLast?_append]
  cases hb : b.data.getLast? with
  | none => rw [hb] at h; exact absurd h (by simp)
  | some c => rw [hb] at h; simpa [Option.or] using h

theorem finishOk_pyJoin (sep : String) :
    ∀ l : List String, l ≠ [] → (∀ x ∈ l, finishOk x = true) →
      finishOk (pyJoin sep l) = true
  | [], h, _ => absurd rfl h
  | [x], _, hall => by simpa [pyJoin] using hall x (by simp)
  | x :: y :: ys, _, hall => by
    show finishOk (x ++ sep ++ pyJoin sep (y :: ys)) = true
    exact finishOk_append _ _
      (finishOk_pyJoin sep (y :: ys) (by simp) (fun z hz => hall z (by simp [hz])))

theorem pyStrip_eq_self {s : String} (h1 : beginsOk s = true) (h2 : finishOk s = true) :
    pyStrip s = s := by
  obtain ⟨l⟩ := s
  unfold beginsOk at h1
  unfold finishOk at h2
  have hb : ∀ c, l.head? = some c → c.isWhitespace = false := by
    intro c hc
    change (match l.head? with
      | some c => !c.isWhitespace
      | none => false) = true at h1
    rw [hc] at h1
    simpa using h1
  have hl : ∀ c, l.getLast? = some c → c.isWhitespace = false := by
    intro c hc
    change (match l.getLast? with
      | some c => !c.isWhitespace
      | none => false) = true at h2
    rw [hc] at h2
    simpa using h2
  show (⟨((l.dropWhile Char.isWhitespace).reverse.dropWhile Char.isWhitespace).reverse⟩ :
      String) = ⟨l⟩
  rw [dropWhile_ws_eq_self hb,
    dropWhile_ws_eq_self (fun c hc => hl c (by rwa [List.head?_reverse] at hc)),
    List.reverse_reverse]

theorem pyStrip_append (a b : String) (h1 : beginsOk a = true) (h2 : finishOk b = true) :
    pyStrip (a ++ b) = a ++ b :=
  pyStrip_eq_self (beginsOk_append a b h1) (finishOk_append a b h2)

/-- The boolean substring test decides list infixity. -/
theorem listInfixOf_iff (p : List Char) : ∀ l : List Char, listInfixOf p l = true ↔ p <:+: l
  | [] => by
    simp [listInfixOf, List.isEmpty_iff]
  | b :: bs => by
    simp [listInfixOf, listInfixOf_iff p bs, List.isPrefixOf_iff_prefix,
      List.infix_cons_iff]

/-- The denylist test of `generate_select_query` holds exactly when the
lowercased filter text contains one of the eight denylisted substrings. -/
theorem dangerous_iff (w : String) :
    dangerous_patterns.any (fun pattern => pyInStr (pyLower pattern) (pyLower w)) = true ↔
      ∃ p ∈ ([";", "--", "/*", "*/", "xp_", "exec", "drop", "select"] : List String),
        p.data <:+: (pyLower w).data := by
  rw [List.any_eq_true]
  have hlow : ∀ p ∈ dangerous_patterns, pyLower p = p := by decide
  constructor
  · rintro ⟨p, hp, h⟩
    refine ⟨p, hp, ?_⟩
    rw [hlow p hp] at h
    exact (listInfixOf_iff p.data (pyLower w).data).mp h
  · rintro ⟨p, hp, h⟩
    refine ⟨p, hp, ?_⟩
    rw [hlow p hp]
    exact (listInfixOf_iff p.data (pyLower w).data).mpr h

/-! ### Structural lemmas about the five generators -/

theorem contains_eq_decide (l : List String) (a : String) :
    l.contains a = decide (a ∈ l) := by
  simp [List.contains]

/-- The qualified condition `<t>.<k> = :<k>` ends in the last character
of `k`, so it ends off-whitespace whenever `k` does. -/
theorem finishOk_cond (t k lead : String) (h : finishOk k = true) :
    finishOk (t ++ "." ++ k ++ lead ++ k) = true :=
  finishOk_append _ _ h

theorem generate_delete_query_ok {m : Model} {t : String} {u : List String}
    (ht : m.tableName? = some t) (hne : u ≠ [])
    (hfin : ∀ k ∈ u, finishOk k = true) :
    generate_delete_query m u =
      .ok ("DELETE FROM " ++ t ++ " WHERE " ++
        pyJoin " AND " (u.map (fun field => t ++ "." ++ field ++ " = :" ++ field))) := by
  unfold generate_delete_query tableNameOrMsg
  rw [ht]
  have hlen : ¬ u.length = 0 := by simpa [List.length_eq_zero] using hne
  simp only [if_neg hlen]
  congr 1
  apply pyStrip_append
  · repeat apply beginsOk_append
    decide
  · apply finishOk_pyJoin _ _ (by simpa using hne)
    intro x hx
    obtain ⟨k, hk, rfl⟩ := List.mem_map.mp hx
    exact finishOk_cond t k " = :" (hfin k hk)

theorem generate_update_query_ok {m : Model} {t : String} {u : List String} {f0 : String}
    (ht : m.tableName? = some t) (hne : u ≠ [])
    (hf0 : f0 ∈ m.fields) (hf0u : f0 ∉ u)
    (hfin : ∀ k ∈ u, finishOk k = true) :
    generate_update_query m u =
      .ok ("UPDATE " ++ t ++ " SET " ++
        pyJoin ", " ((m.fields.filter (fun field => !u.contains field)).map
          (fun field => t ++ "." ++ field ++ " = :" ++ field)) ++
        " WHERE " ++
        pyJoin " AND " (u.map (fun field => t ++ "." ++ field ++ " = :" ++ field))) := by
  unfold generate_update_query tableNameOrMsg
  rw [ht]
  have hlen : ¬ u.length = 0 := by simpa [List.length_eq_zero] using hne
  have hmem : f0 ∈ m.fields.filter (fun field => !u.contains field) := by
    rw [List.mem_filter]
    exact ⟨hf0, by simp [contains_eq_decide, hf0u]⟩
  have hemp : (m.fields.filter (fun field => !u.contains field)).isEmpty = false := by
    rw [List.isEmpty_eq_false]
    exact List.ne_nil_of_mem hmem
  simp only [if_neg hlen, hemp, Bool.false_eq_true, if_false]
  congr 1
  apply pyStrip_append
  · repeat apply beginsOk_append
    decide
  · apply finishOk_pyJoin _ _ (by simpa using hne)
    intro x hx
    obtain ⟨k, hk, rfl⟩ := List.mem_map.mp hx
    exact finishOk_cond t k " = :" (hfin k hk)

theorem generate_upsert_query_ok {m : Model} {t : String} {u : List String}
    (ht : m.tableName? = some t) (hne : u ≠ [])
    (hsub : ∀ k ∈ u, k ∈ m.fields) :
    generate_upsert_query m u =
      .ok ("\n            MERGE INTO " ++ t ++ " USING (SELECT " ++
        pyJoin ", " (u.map (fun field => ":" ++ field ++ " as " ++ field)) ++
        " FROM dual) src\n            ON (" ++
        pyJoin " AND " (u.map (fun field => t ++ "." ++ field ++ " = src." ++ field)) ++
        ")\n            WHEN MATCHED THEN\n                UPDATE SET " ++
        pyJoin ", " ((m.fields.filter (fun column => !u.contains column)).map
          (fun column => column ++ " = :" ++ column)) ++
        "\n            WHEN NOT MATCHED THEN\n                INSERT (" ++
        pyJoin ", " m.fields ++
        ")\n                VALUES (" ++
        pyJoin ", " (m.fields.map (fun column => ":" ++ column)) ++ ")\n            ") := by
  unfold generate_upsert_query tableNameOrMsg
  rw [ht]
  have hlen : ¬ u.length = 0 := by simpa [List.length_eq_zero] using hne
  have hfind : u.find? (fun field => !m.fields.contains field) = none := by
    rw [List.find?_eq_none]
    intro k hk
    simp [contains_eq_decide, hsub k hk]
  simp only [if_neg hlen, hfind]

theorem generate_insert_query_ok {m : Model} {t : String}
    (ht : m.tableName? = some t)
    (hdund : ∀ f ∈ m.fields, pyStartsWith f "__" = false) :
    generate_insert_query m =
      .ok ("INSERT INTO " ++ t ++ " (" ++ pyJoin ", " m.fields ++ ") VALUES (" ++
        pyJoin ", " (m.fields.map (fun field => ":" ++ field)) ++ ")") := by
  unfold generate_insert_query rawTableName
  rw [ht]
  have hfilt : m.fields.filter (fun field => !pyStartsWith field "__") = m.fields := by
    rw [List.filter_eq_self]
    intro f hf
    simp [hdund f hf]
  simp only [hfilt]

theorem generate_insert_query_noTable {m : Model} (h : m.tableName? = none) :
    generate_insert_query m = .error (.attributeError (pyMissingAttrMsg m.name)) := by
  unfold generate_insert_query rawTableName
  rw [h]

theorem generate_upsert_query_noTable {m : Model} (h : m.tableName? = none) (u : List String) :
    generate_upsert_query m u = .error (.attributeError MISSING_TABLE_NAME_ATTR_MSG) := by
  unfold generate_upsert_query tableNameOrMsg
  rw [h]

theorem generate_delete_query_noTable {m : Model} (h : m.tableName? = none) (u : List String) :
    generate_delete_query m u = .error (.attributeError MISSING_TABLE_NAME_ATTR_MSG) := by
  unfold generate_delete_query tableNameOrMsg
  rw [h]

theorem generate_update_query_noTable {m : Model} (h : m.tableName? = none) (u : List String) :
    generate_update_query m u = .error (.attributeError MISSING_TABLE_NAME_ATTR_MSG) := by
  unfold generate_update_query tableNameOrMsg
  rw [h]

theorem generate_select_query_noTable {m : Model} (h : m.tableName? = none)
    (w : Option String) :
    generate_select_query m w = .error (.attributeError MISSING_TABLE_NAME_ATTR_MSG) := by
  unfold generate_select_query tableNameOrMsg
  rw [h]

theorem generate_upsert_query_emptyUsing {m : Model} {t : String}
    (ht : m.tableName? = some t) :
    generate_upsert_query m [] = .error (.valueError EMPTY_USING_MSG) := by
  unfold generate_upsert_query tableNameOrMsg
  rw [ht]
  simp

theorem generate_delete_query_emptyUsing {m : Model} {t : String}
    (ht : m.tableName? = some t) :
    generate_delete_query m [] = .error (.valueError EMPTY_USING_MSG) := by
  unfold generate_delete_query tableNameOrMsg
  rw [ht]
  simp

theorem generate_update_query_emptyUsing {m : Model} {t : String}
    (ht : m.tableName? = some t) :
    generate_update_query m [] = .error (.valueError EMPTY_USING_MSG) := by
  unfold generate_update_query tableNameOrMsg
  rw [ht]
  simp

theorem generate_upsert_query_unknownField {m : Model} {t : String} {u : List String}
    {g : String} (ht : m.tableName? = some t) (hne : u ≠ [])
    (hfind : u.find? (fun field => !m.fields.contains field) = some g) :
    generate_upsert_query m u =
      .error (.valueError ("The field " ++ "'" ++ g ++ "'" ++
        " does not exist in the model " ++ m.name)) := by
  unfold generate_upsert_query tableNameOrMsg
  rw [ht]
  have hlen : ¬ u.length = 0 := by simpa [List.length_eq_zero] using hne
  simp only [if_neg hlen, hfind]

/-- When some element of `using` is not a declared field, the upsert
generator raises the `ValueError` naming the first such element. -/
theorem generate_upsert_query_unknown_exists {m : Model} {t : String} {u : List String}
    (ht : m.tableName? = some t) (hne : u ≠ [])
    (hbad : ∃ f ∈ u, f ∉ m.fields) :
    ∃ g, g ∈ u ∧ g ∉ m.fields ∧
      generate_upsert_query m u =
        .error (.valueError ("The field " ++ "'" ++ g ++ "'" ++
          " does not exist in the model " ++ m.name)) := by
  obtain ⟨f, hf, hff⟩ := hbad
  have hsome : (u.find? (fun field => !m.fields.contains field)).isSome := by
    rw [List.find?_isSome]
    exact ⟨f, hf, by simp [contains_eq_decide, hff]⟩
  obtain ⟨g, hg⟩ := Option.isSome_iff_exists.mp hsome
  have hgm : g ∈ u := List.mem_of_find?_eq_some hg
  have hgp := List.find?_some hg
  have hgf : g ∉ m.fields := by simpa [contains_eq_decide] using hgp
  exact ⟨g, hgm, hgf, generate_upsert_query_unknownField ht hne hg⟩

theorem generate_update_query_coverAll {m : Model} {t : String} {u : List String}
    (ht : m.tableName? = some t) (hne : u ≠ [])
    (hcov : ∀ f ∈ m.fields, f ∈ u) :
    generate_update_query m u =
      .error (.valueError "No fields to update after excluding 'using' fields.") := by
  unfold generate_update_query tableNameOrMsg
  rw [ht]
  have hlen : ¬ u.length = 0 := by simpa [List.length_eq_zero] using hne
  have hemp : (m.fields.filter (fun field => !u.contains field)).isEmpty = true := by
    rw [List.isEmpty_iff, List.filter_eq_nil_iff]
    intro f hf
    simp [contains_eq_decide, hcov f hf]
  simp only [if_neg hlen, hemp, if_true]

theorem generate_select_query_noWhere {m : Model} {t : String} {w : Option String}
    (ht : m.tableName? = some t) (hfin : finishOk t = true)
    (hw : pyTruthy w = false) :
    generate_select_query m w =
      .ok ("SELECT " ++ pyJoin ", " m.fields ++ " FROM " ++ t) := by
  unfold generate_select_query tableNameOrMsg
  rw [ht]
  simp only [hw, Bool.false_and, Bool.false_eq_true, if_false]
  congr 1
  apply pyStrip_append
  · repeat apply beginsOk_append
    decide
  · exact hfin

theorem generate_select_query_where_okRaw {m : Model} {t : String} {w : String}
    (ht : m.tableName? = some t) (hw : w ≠ "")
    (hnd : dangerous_patterns.any
      (fun pattern => pyInStr (pyLower pattern) (pyLower w)) = false) :
    generate_select_query m (some w) =
      .ok (pyStrip ("SELECT " ++ pyJoin ", " m.fields ++ " FROM " ++ t ++ " WHERE " ++ w)) := by
  unfold generate_select_query tableNameOrMsg
  rw [ht]
  have htr : pyTruthy (some w) = true := by
    have hwe : w.isEmpty = false := by
      rw [Bool.eq_false_iff]
      intro hemp
      exact hw ((String.isEmpty_iff w).mp hemp)
    simp [pyTruthy, hwe]
  simp only [optStr, htr, Bool.true_and, hnd, Bool.false_eq_true, if_false, if_true]

theorem generate_select_query_where_ok {m : Model} {t : String} {w : String}
    (ht : m.tableName? = some t) (hw : w ≠ "") (hfinw : finishOk w = true)
    (hnd : dangerous_patterns.any
      (fun pattern => pyInStr (pyLower pattern) (pyLower w)) = false) :
    generate_select_query m (some w) =
      .ok ("SELECT " ++ pyJoin ", " m.fields ++ " FROM " ++ t ++ " WHERE " ++ w) := by
  rw [generate_select_query_where_okRaw ht hw hnd]
  congr 1
  apply pyStrip_append
  · repeat apply beginsOk_append
    decide
  · exact hfinw

theorem generate_select_query_where_err {m : Model} {t : String} {w : String}
    (ht : m.tableName? = some t) (hw : w ≠ "")
    (hd : dangerous_patterns.any
      (fun pattern => pyInStr (pyLower pattern) (pyLower w)) = true) :
    generate_select_query m (some w) =
      .error (.valueError ("Clause WHERE invalid : " ++ w)) := by
  unfold generate_select_query tableNameOrMsg
  rw [ht]
  have htr : pyTruthy (some w) = true := by
    have hwe : w.isEmpty = false := by
      rw [Bool.eq_false_iff]
      intro hemp
      exact hw ((String.isEmpty_iff w).mp hemp)
    simp [pyTruthy, hwe]
  simp only [optStr, htr, Bool.true_and, hd, if_true]

theorem contains_eq_of_perm {u₁ u₂ : List String} (hp : u₁.Perm u₂) (a : String) :
    u₁.contains a = u₂.contains a := by
  simp only [contains_eq_decide]
  exact decide_eq_decide.mpr hp.mem_iff

theorem filter_not_contains_of_perm (l : List String) {u₁ u₂ : List String}
    (hp : u₁.Perm u₂) :
    l.filter (fun field => !u₁.contains field) =
      l.filter (fun field => !u₂.contains field) := by
  apply List.filter_congr
  intro a _
  rw [contains_eq_of_perm hp a]

/-! ### Concrete models used by the witnesses -/

/-- A model with a table name and two fields, like the package's test models. -/
def mTbl : Model := ⟨some "tbl", "M", ["id", "name"]⟩

/-- A model with three fields, for the permutation claims. -/
def mAbc : Model := ⟨some "t", "M3", ["a", "b", "c"]⟩

/-- A model with two fields, for the unknown-`using`-field claims. -/
def mIdx : Model := ⟨some "t", "M7", ["id", "x"]⟩

/-- A model without `__TABLE_NAME__`. -/
def mNoTable : Model := ⟨none, "NoTableNameModel", ["id", "name"]⟩

/-- A model with a table name and no declared fields. -/
def mEmpty : Model := ⟨some "empty_table", "EmptyModel", []⟩

/-! ### The claims -/

/-- C1: for every model with a table name and non-empty `using ⊆ fields`
(field names are Python identifiers, hence end off-whitespace),
`generate_update_query` returns `UPDATE <t> SET <t>.<f> = :f, ...` over
exactly the declared fields not in `using`, in declared order, followed
by `WHERE <t>.<k> = :k AND ...` over exactly the `using` fields, each
reference table-qualified; and when `using` covers every declared field
it raises the `ValueError` (the spec's `ValidationError`). -/
theorem C1_generate_update_query {m : Model} {t : String} (u : List String)
    (ht : m.tableName? = some t) (hne : u ≠ [])
    (hsub : ∀ k ∈ u, k ∈ m.fields)
    (hfin : ∀ f ∈ m.fields, finishOk f = true) :
    ((∃ f0 ∈ m.fields, f0 ∉ u) →
      generate_update_query m u =
        .ok ("UPDATE " ++ t ++ " SET " ++
          pyJoin ", " ((m.fields.filter (fun field => !u.contains field)).map
            (fun field => t ++ "." ++ field ++ " = :" ++ field)) ++
          " WHERE " ++
          pyJoin " AND " (u.map (fun field => t ++ "." ++ field ++ " = :" ++ field)))) ∧
    ((∀ f ∈ m.fields, f ∈ u) →
      generate_update_query m u =
        .error (.valueError "No fields to update after excluding 'using' fields.")) := by
  refine ⟨?_, generate_update_query_coverAll ht hne⟩
  rintro ⟨f0, hf0, hf0u⟩
  exact generate_update_query_ok ht hne hf0 hf0u (fun k hk => hfin k (hsub k hk))

/-- Witness for C1 at `mTbl` with `using = [id]`. -/
theorem C1_witness :
    (["id"] : List String) ≠ [] ∧ (∀ k ∈ (["id"] : List String), k ∈ mTbl.fields) ∧
    (((∃ f0 ∈ mTbl.fields, f0 ∉ (["id"] : List String)) →
      generate_update_query mTbl ["id"] =
        .ok ("UPDATE " ++ "tbl" ++ " SET " ++
          pyJoin ", " ((mTbl.fields.filter
              (fun field => !(["id"] : List String).contains field)).map
            (fun field => "tbl" ++ "." ++ field ++ " = :" ++ field)) ++
          " WHERE " ++
          pyJoin " AND " ((["id"] : List String).map
            (fun field => "tbl" ++ "." ++ field ++ " = :" ++ field)))) ∧
    ((∀ f ∈ mTbl.fields, f ∈ (["id"] : List String)) →
      generate_update_query mTbl ["id"] =
        .error (.valueError "No fields to update after excluding 'using' fields."))) :=
  ⟨by decide, by decide,
    C1_generate_update_query (m := mTbl) ["id"] rfl (by decide) (by decide) (by decide)⟩

/-- C2: for every model with a table name and non-empty `using` all of
whose elements are declared fields, `generate_upsert_query` returns the
single MERGE statement whose ON condition AND-joins `<t>.<k> = src.<k>`
over exactly the `using` fields, whose WHEN MATCHED branch SETs exactly
the declared fields not in `using` (declared order) from named
parameters, and whose WHEN NOT MATCHED branch INSERTs all declared
fields with one named parameter each; and when some element of `using`
is not a declared field it raises the `ValueError` naming that field and
the model. -/
theorem C2_generate_upsert_query {m : Model} {t : String} (u : List String)
    (ht : m.tableName? = some t) (hne : u ≠ []) :
    ((∀ k ∈ u, k ∈ m.fields) →
      generate_upsert_query m u =
        .ok ("\n            MERGE INTO " ++ t ++ " USING (SELECT " ++
          pyJoin ", " (u.map (fun field => ":" ++ field ++ " as " ++ field)) ++
          " FROM dual) src\n            ON (" ++
          pyJoin " AND " (u.map (fun field => t ++ "." ++ field ++ " = src." ++ field)) ++
          ")\n            WHEN MATCHED THEN\n                UPDATE SET " ++
          pyJoin ", " ((m.fields.filter (fun column => !u.contains column)).map
            (fun column => column ++ " = :" ++ column)) ++
          "\n            WHEN NOT MATCHED THEN\n                INSERT (" ++
          pyJoin ", " m.fields ++
          ")\n                VALUES (" ++
          pyJoin ", " (m.fields.map (fun column => ":" ++ column)) ++
          ")\n            ")) ∧
    ((∃ f ∈ u, f ∉ m.fields) →
      ∃ g, g ∈ u ∧ g ∉ m.fields ∧
        generate_upsert_query m u =
          .error (.valueError ("The field " ++ "'" ++ g ++ "'" ++
            " does not exist in the model " ++ m.name))) :=
  ⟨fun hsub => generate_upsert_query_ok ht hne hsub,
   fun hbad => generate_upsert_query_unknown_exists ht hne hbad⟩

/-- Witness for C2 at `mTbl` with `using = [id]`. -/
theorem C2_witness :
    (["id"] : List String) ≠ [] ∧
    (((∀ k ∈ (["id"] : List String), k ∈ mTbl.fields) →
      generate_upsert_query mTbl ["id"] =
        .ok ("\n            MERGE INTO " ++ "tbl" ++ " USING (SELECT " ++
          pyJoin ", " ((["id"] : List String).map
            (fun field => ":" ++ field ++ " as " ++ field)) ++
          " FROM dual) src\n            ON (" ++
          pyJoin " AND " ((["id"] : List String).map
            (fun field => "tbl" ++ "." ++ field ++ " = src." ++ field)) ++
          ")\n            WHEN MATCHED THEN\n                UPDATE SET " ++
          pyJoin ", " ((mTbl.fields.filter
              (fun column => !(["id"] : List String).contains column)).map
            (fun column => column ++ " = :" ++ column)) ++
          "\n            WHEN NOT MATCHED THEN\n                INSERT (" ++
          pyJoin ", " mTbl.fields ++
          ")\n                VALUES (" ++
          pyJoin ", " (mTbl.fields.map (fun column => ":" ++ column)) ++
          ")\n            ")) ∧
    ((∃ f ∈ (["id"] : List String), f ∉ mTbl.fields) →
      ∃ g, g ∈ (["id"] : List String) ∧ g ∉ mTbl.fields ∧
        generate_upsert_query mTbl ["id"] =
          .error (.valueError ("The field " ++ "'" ++ g ++ "'" ++
            " does not exist in the model " ++ mTbl.name)))) :=
  ⟨by decide, C2_generate_upsert_query (m := mTbl) ["id"] rfl (by decide)⟩

/-- C3: for every model with table name `t` and declared fields
`[f1..fn]` (pydantic field names never start with a dunder),
`generate_insert_query` returns exactly
`INSERT INTO t (f1, ..., fn) VALUES (:f1, ..., :fn)` over all declared
fields in declared order, the placeholder list having the same length
`n` as the column list. -/
theorem C3_generate_insert_query {m : Model} {t : String}
    (ht : m.tableName? = some t)
    (hdund : ∀ f ∈ m.fields, pyStartsWith f "__" = false) :
    generate_insert_query m =
      .ok ("INSERT INTO " ++ t ++ " (" ++ pyJoin ", " m.fields ++ ") VALUES (" ++
        pyJoin ", " (m.fields.map (fun field => ":" ++ field)) ++ ")") ∧
    (m.fields.map (fun field => ":" ++ field)).length = m.fields.length :=
  ⟨generate_insert_query_ok ht hdund, by simp⟩

/-- Witness for C3 at `mTbl`. -/
theorem C3_witness :
    (∀ f ∈ mTbl.fields, pyStartsWith f "__" = false) ∧
    (generate_insert_query mTbl =
      .ok ("INSERT INTO " ++ "tbl" ++ " (" ++ pyJoin ", " mTbl.fields ++ ") VALUES (" ++
        pyJoin ", " (mTbl.fields.map (fun field => ":" ++ field)) ++ ")") ∧
    (mTbl.fields.map (fun field => ":" ++ field)).length = mTbl.fields.length) :=
  ⟨by decide, C3_generate_insert_query (m := mTbl) rfl (by decide)⟩

/-- C5: for every model with a table name, `generate_delete_query` with
an empty `using` raises the `ValueError` (the spec's `ValidationError`),
and with one or more `using` fields (field names end off-whitespace)
returns `DELETE FROM <t> WHERE <t>.<k1> = :k1 AND ...`, an AND-joined
WHERE over exactly the `using` fields and no others. -/
theorem C5_generate_delete_query {m : Model} {t : String} (u : List String)
    (ht : m.tableName? = some t) (hne : u ≠ [])
    (hfin : ∀ k ∈ u, finishOk k = true) :
    generate_delete_query m [] = .error (.valueError EMPTY_USING_MSG) ∧
    generate_delete_query m u =
      .ok ("DELETE FROM " ++ t ++ " WHERE " ++
        pyJoin " AND " (u.map (fun field => t ++ "." ++ field ++ " = :" ++ field))) :=
  ⟨generate_delete_query_emptyUsing ht, generate_delete_query_ok ht hne hfin⟩

/-- Witness for C5 at `mTbl` with `using = [id]`. -/
theorem C5_witness :
    (["id"] : List String) ≠ [] ∧
    (generate_delete_query mTbl [] = .error (.valueError EMPTY_USING_MSG) ∧
    generate_delete_query mTbl ["id"] =
      .ok ("DELETE FROM " ++ "tbl" ++ " WHERE " ++
        pyJoin " AND " ((["id"] : List String).map
          (fun field => "tbl" ++ "." ++ field ++ " = :" ++ field)))) :=
  ⟨by decide, C5_generate_delete_query (m := mTbl) ["id"] rfl (by decide) (by decide)⟩

/-- C8: for every model lacking table-name metadata, each of the five
generators fails fast with the missing-table-name `AttributeError` (the
spec's `SchemaError`), regardless of its other arguments and before any
other validation or output:  `generate_insert_query` with Python's own
attribute-access message, the other four with
`MISSING_TABLE_NAME_ATTR_MSG`. -/
theorem C8_missing_table_name (m : Model) (u : List String) (w : Option String)
    (h : m.tableName? = none) :
    generate_insert_query m = .error (.attributeError (pyMissingAttrMsg m.name)) ∧
    generate_upsert_query m u = .error (.attributeError MISSING_TABLE_NAME_ATTR_MSG) ∧
    generate_delete_query m u = .error (.attributeError MISSING_TABLE_NAME_ATTR_MSG) ∧
    generate_update_query m u = .error (.attributeError MISSING_TABLE_NAME_ATTR_MSG) ∧
    generate_select_query m w = .error (.attributeError MISSING_TABLE_NAME_ATTR_MSG) :=
  ⟨generate_insert_query_noTable h, generate_upsert_query_noTable h u,
   generate_delete_query_noTable h u, generate_update_query_noTable h u,
   generate_select_query_noTable h w⟩

/-- Witness for C8 at `mNoTable` with `using = [k]`, `where = some v`. -/
theorem C8_witness :
    mNoTable.tableName? = none ∧
    (generate_insert_query mNoTable =
      .error (.attributeError (pyMissingAttrMsg mNoTable.name)) ∧
    generate_upsert_query mNoTable ["k"] =
      .error (.attributeError MISSING_TABLE_NAME_ATTR_MSG) ∧
    generate_delete_query mNoTable ["k"] =
      .error (.attributeError MISSING_TABLE_NAME_ATTR_MSG) ∧
    generate_update_query mNoTable ["k"] =
      .error (.attributeError MISSING_TABLE_NAME_ATTR_MSG) ∧
    generate_select_query mNoTable (some "v") =
      .error (.attributeError MISSING_TABLE_NAME_ATTR_MSG)) :=
  ⟨rfl, C8_missing_table_name mNoTable ["k"] (some "v") rfl⟩

/-- C9: for every model lacking table-name metadata called with an empty
`using` list (both preconditions violated at once), the upsert, delete
and update generators raise the missing-table-name error, not the
empty-`using` error: the table-name check strictly precedes every check
on `using`. -/
theorem C9_table_check_first (m : Model) (h : m.tableName? = none) :
    generate_upsert_query m [] = .error (.attributeError MISSING_TABLE_NAME_ATTR_MSG) ∧
    generate_delete_query m [] = .error (.attributeError MISSING_TABLE_NAME_ATTR_MSG) ∧
    generate_update_query m [] = .error (.attributeError MISSING_TABLE_NAME_ATTR_MSG) ∧
    generate_upsert_query m [] ≠ .error (.valueError EMPTY_USING_MSG) ∧
    generate_delete_query m [] ≠ .error (.valueError EMPTY_USING_MSG) ∧
    generate_update_query m [] ≠ .error (.valueError EMPTY_USING_MSG) := by
  have h1 := generate_upsert_query_noTable h []
  have h2 := generate_delete_query_noTable h []
  have h3 := generate_update_query_noTable h []
  refine ⟨h1, h2, h3, ?_, ?_, ?_⟩
  · rw [h1]; decide
  · rw [h2]; decide
  · rw [h3]; decide

/-- Witness for C9 at `mNoTable`. -/
theorem C9_witness :
    mNoTable.tableName? = none ∧
    (generate_upsert_query mNoTable [] =
      .error (.attributeError MISSING_TABLE_NAME_ATTR_MSG) ∧
    generate_delete_query mNoTable [] =
      .error (.attributeError MISSING_TABLE_NAME_ATTR_MSG) ∧
    generate_update_query mNoTable [] =
      .error (.attributeError MISSING_TABLE_NAME_ATTR_MSG) ∧
    generate_upsert_query mNoTable [] ≠ .error (.valueError EMPTY_USING_MSG) ∧
    generate_delete_query mNoTable [] ≠ .error (.valueError EMPTY_USING_MSG) ∧
    generate_update_query mNoTable [] ≠ .error (.valueError EMPTY_USING_MSG)) :=
  ⟨rfl, C9_table_check_first mNoTable rfl⟩

/-- C10: for every model with a table name (one not ending in
whitespace, which the final `.strip()` would otherwise trim) and zero
declared fields, `generate_insert_query` returns the degenerate
`INSERT INTO <table> () VALUES ()` and `generate_select_query` with no
`where` returns `SELECT  FROM <table>`; neither raises. -/
theorem C10_empty_fields {m : Model} {t : String}
    (ht : m.tableName? = some t) (hf : m.fields = []) (hfin : finishOk t = true) :
    generate_insert_query m = .ok ("INSERT INTO " ++ t ++ " () VALUES ()") ∧
    generate_select_query m none = .ok ("SELECT  FROM " ++ t) := by
  constructor
  · have h2 := generate_insert_query_ok ht (by rw [hf]; intro f hf'; cases hf')
    rw [hf] at h2
    rw [h2]
    have key : ∀ s : String,
        s ++ " (" ++ pyJoin ", " [] ++ ") VALUES (" ++
          pyJoin ", " (List.map (fun field => ":" ++ field) []) ++ ")" =
        s ++ " () VALUES ()" := by
      intro s
      simp only [List.map_nil, pyJoin, String.append_empty, String.append_assoc]
      congr 1
    exact congrArg Except.ok (key ("INSERT INTO " ++ t))
  · have h := generate_select_query_noWhere (w := (none : Option String)) ht hfin rfl
    rw [hf] at h
    have key : ("SELECT " ++ pyJoin ", " [] ++ " FROM " : String) = "SELECT  FROM " := by
      decide
    rw [key] at h
    exact h

/-- Witness for C10 at `mEmpty`. -/
theorem C10_witness :
    mEmpty.fields = [] ∧ finishOk "empty_table" = true ∧
    (generate_insert_query mEmpty =
      .ok ("INSERT INTO " ++ "empty_table" ++ " () VALUES ()") ∧
    generate_select_query mEmpty none = .ok ("SELECT  FROM " ++ "empty_table")) :=
  ⟨rfl, by decide, C10_empty_fields (m := mEmpty) rfl rfl (by decide)⟩

/-- C4 counterexample: at table `t`, fields `[id]`, `where = "a "`
(which matches no denylisted substring), the code returns the
`.strip()`ped query `SELECT id FROM t WHERE a` — the where text is not
appended verbatim, its trailing space is lost. -/
theorem C4_counterexample :
    (¬ ∃ p ∈ ([";", "--", "/*", "*/", "xp_", "exec", "drop", "select"] : List String),
        p.data <:+: (pyLower "a ").data) ∧
    generate_select_query ⟨some "t", "CEx", ["id"]⟩ (some "a ") =
      .ok "SELECT id FROM t WHERE a" ∧
    ("SELECT id FROM t WHERE a" : String) ≠
      "SELECT " ++ pyJoin ", " ["id"] ++ " FROM " ++ "t" ++ " WHERE " ++ "a " := by
  refine ⟨?_, by decide, by decide⟩
  rintro ⟨p, hp, hinf⟩
  have h2 := (listInfixOf_iff p.data (pyLower "a ").data).mpr hinf
  have h3 : ∀ q ∈ ([";", "--", "/*", "*/", "xp_", "exec", "drop", "select"] : List String),
      listInfixOf q.data (pyLower "a ").data = false := by decide
  rw [h3 p hp] at h2
  exact absurd h2 (by decide)

/-- C4 (amended): for every model with a table name (not ending in
whitespace), `generate_select_query` with `where=None` or `where=""`
returns `SELECT <fields> FROM <table>` with no WHERE clause; a
non-empty `where` raises the `ValueError` (the spec's
`InvalidFilterError`) iff its lowercased text contains one of `;`,
`--`, `/*`, `*/`, `xp_`, `exec`, `drop`, `select`; otherwise the where
text is appended after `WHERE ` — verbatim up to the final `.strip()`,
i.e. exactly when the where text does not end in whitespace. -/
theorem C4_generate_select_query {m : Model} {t : String} (w : String)
    (ht : m.tableName? = some t) (hfin : finishOk t = true) (hw : w ≠ "") :
    generate_select_query m none =
      .ok ("SELECT " ++ pyJoin ", " m.fields ++ " FROM " ++ t) ∧
    generate_select_query m (some "") =
      .ok ("SELECT " ++ pyJoin ", " m.fields ++ " FROM " ++ t) ∧
    (generate_select_query m (some w) =
        .error (.valueError ("Clause WHERE invalid : " ++ w)) ↔
      ∃ p ∈ ([";", "--", "/*", "*/", "xp_", "exec", "drop", "select"] : List String),
        p.data <:+: (pyLower w).data) ∧
    ((¬ ∃ p ∈ ([";", "--", "/*", "*/", "xp_", "exec", "drop", "select"] : List String),
        p.data <:+: (pyLower w).data) → finishOk w = true →
      generate_select_query m (some w) =
        .ok ("SELECT " ++ pyJoin ", " m.fields ++ " FROM " ++ t ++ " WHERE " ++ w)) := by
  refine ⟨generate_select_query_noWhere ht hfin rfl,
    generate_select_query_noWhere ht hfin (by decide), ?_, ?_⟩
  · constructor
    · intro herr
      cases hd : dangerous_patterns.any
          (fun pattern => pyInStr (pyLower pattern) (pyLower w)) with
      | true => exact (dangerous_iff w).mp hd
      | false =>
        rw [generate_select_query_where_okRaw ht hw hd] at herr
        exact absurd herr (by simp)
    · intro hex
      exact generate_select_query_where_err ht hw ((dangerous_iff w).mpr hex)
  · intro hnex hfw
    have hd : dangerous_patterns.any
        (fun pattern => pyInStr (pyLower pattern) (pyLower w)) = false := by
      cases hd : dangerous_patterns.any
          (fun pattern => pyInStr (pyLower pattern) (pyLower w)) with
      | true => exact absurd ((dangerous_iff w).mp hd) hnex
      | false => rfl
    exact generate_select_query_where_ok ht hw hfw hd

/-- Witness for the amended C4 at `mTbl` with `where = "x = 1"`. -/
theorem C4_witness :
    ("x = 1" : String) ≠ "" ∧
    (generate_select_query mTbl none =
      .ok ("SELECT " ++ pyJoin ", " mTbl.fields ++ " FROM " ++ "tbl") ∧
    generate_select_query mTbl (some "") =
      .ok ("SELECT " ++ pyJoin ", " mTbl.fields ++ " FROM " ++ "tbl") ∧
    (generate_select_query mTbl (some "x = 1") =
        .error (.valueError ("Clause WHERE invalid : " ++ "x = 1")) ↔
      ∃ p ∈ ([";", "--", "/*", "*/", "xp_", "exec", "drop", "select"] : List String),
        p.data <:+: (pyLower "x = 1").data) ∧
    ((¬ ∃ p ∈ ([";", "--", "/*", "*/", "xp_", "exec", "drop", "select"] : List String),
        p.data <:+: (pyLower "x = 1").data) → finishOk "x = 1" = true →
      generate_select_query mTbl (some "x = 1") =
        .ok ("SELECT " ++ pyJoin ", " mTbl.fields ++ " FROM " ++ "tbl" ++
          " WHERE " ++ "x = 1"))) :=
  ⟨by decide, C4_generate_select_query (m := mTbl) "x = 1" rfl (by decide) (by decide)⟩

/-- C6 counterexample: `using = [a, b]` and `using = [b, a]` are
permutations of each other, both subsets of the declared fields of
`mAbc`, yet `generate_delete_query` yields different SQL: the WHERE
clause follows the input order of `using`, not declared field order. -/
theorem C6_counterexample :
    (["a", "b"] : List String).Perm ["b", "a"] ∧
    generate_delete_query mAbc ["a", "b"] ≠ generate_delete_query mAbc ["b", "a"] :=
  ⟨by decide, by decide⟩

/-- C6 (amended): for permuted `using` lists the parts derived from the
declared field list are identical — the set-difference filter, hence
update's SET clause and upsert's WHEN MATCHED SET (and upsert's
INSERT/VALUES lists, which ignore `using` entirely) — all in declared
field order; but the WHERE and ON conditions follow the input order of
`using`, so the full SQL strings of permuted lists generally differ. -/
theorem C6_declared_order_parts {m : Model} {t : String} (u₁ u₂ : List String)
    (f0 : String) (ht : m.tableName? = some t) (hp : u₁.Perm u₂) (hne : u₁ ≠ [])
    (hsub : ∀ k ∈ u₁, k ∈ m.fields)
    (hf0 : f0 ∈ m.fields) (hf0u : f0 ∉ u₁)
    (hfin : ∀ f ∈ m.fields, finishOk f = true) :
    (m.fields.filter (fun field => !u₁.contains field) =
      m.fields.filter (fun field => !u₂.contains field)) ∧
    generate_update_query m u₁ =
      .ok ("UPDATE " ++ t ++ " SET " ++
        pyJoin ", " ((m.fields.filter (fun field => !u₁.contains field)).map
          (fun field => t ++ "." ++ field ++ " = :" ++ field)) ++
        " WHERE " ++
        pyJoin " AND " (u₁.map (fun field => t ++ "." ++ field ++ " = :" ++ field))) ∧
    generate_update_query m u₂ =
      .ok ("UPDATE " ++ t ++ " SET " ++
        pyJoin ", " ((m.fields.filter (fun field => !u₁.contains field)).map
          (fun field => t ++ "." ++ field ++ " = :" ++ field)) ++
        " WHERE " ++
        pyJoin " AND " (u₂.map (fun field => t ++ "." ++ field ++ " = :" ++ field))) ∧
    generate_upsert_query m u₁ =
      .ok ("\n            MERGE INTO " ++ t ++ " USING (SELECT " ++
        pyJoin ", " (u₁.map (fun field => ":" ++ field ++ " as " ++ field)) ++
        " FROM dual) src\n            ON (" ++
        pyJoin " AND " (u₁.map (fun field => t ++ "." ++ field ++ " = src." ++ field)) ++
        ")\n            WHEN MATCHED THEN\n                UPDATE SET " ++
        pyJoin ", " ((m.fields.filter (fun column => !u₁.contains column)).map
          (fun column => column ++ " = :" ++ column)) ++
        "\n            WHEN NOT MATCHED THEN\n                INSERT (" ++
        pyJoin ", " m.fields ++
        ")\n                VALUES (" ++
        pyJoin ", " (m.fields.map (fun column => ":" ++ column)) ++ ")\n            ") ∧
    generate_upsert_query m u₂ =
      .ok ("\n            MERGE INTO " ++ t ++ " USING (SELECT " ++
        pyJoin ", " (u₂.map (fun field => ":" ++ field ++ " as " ++ field)) ++
        " FROM dual) src\n            ON (" ++
        pyJoin " AND " (u₂.map (fun field => t ++ "." ++ field ++ " = src." ++ field)) ++
        ")\n            WHEN MATCHED THEN\n                UPDATE SET " ++
        pyJoin ", " ((m.fields.filter (fun column => !u₁.contains column)).map
          (fun column => column ++ " = :" ++ column)) ++
        "\n            WHEN NOT MATCHED THEN\n                INSERT (" ++
        pyJoin ", " m.fields ++
        ")\n                VALUES (" ++
        pyJoin ", " (m.fields.map (fun column => ":" ++ column)) ++ ")\n            ") := by
  have hne₂ : u₂ ≠ [] := by
    intro h
    apply hne
    have hl := hp.length_eq
    rw [h] at hl
    simpa [List.length_eq_zero] using hl
  have hsub₂ : ∀ k ∈ u₂, k ∈ m.fields := fun k hk => hsub k (hp.mem_iff.mpr hk)
  have hf0u₂ : f0 ∉ u₂ := fun hh => hf0u (hp.mem_iff.mpr hh)
  have hfe := filter_not_contains_of_perm m.fields hp
  refine ⟨hfe,
    generate_update_query_ok ht hne hf0 hf0u (fun k hk => hfin k (hsub k hk)), ?_,
    generate_upsert_query_ok ht hne hsub, ?_⟩
  · have h2 := generate_update_query_ok ht hne₂ hf0 hf0u₂ (fun k hk => hfin k (hsub₂ k hk))
    rw [← hfe] at h2
    exact h2
  · have h3 := generate_upsert_query_ok ht hne₂ hsub₂
    rw [← hfe] at h3
    exact h3

/-- Witness for the amended C6 at `mAbc` with `using` lists `[a, b]`
and `[b, a]` and left-over field `c`. -/
theorem C6_witness :
    (["a", "b"] : List String).Perm ["b", "a"] ∧ ("c" ∈ mAbc.fields ∧ "c" ∉ (["a", "b"] : List String)) ∧
    ((mAbc.fields.filter (fun field => !(["a", "b"] : List String).contains field) =
      mAbc.fields.filter (fun field => !(["b", "a"] : List String).contains field)) ∧
    generate_update_query mAbc ["a", "b"] =
      .ok ("UPDATE " ++ "t" ++ " SET " ++
        pyJoin ", " ((mAbc.fields.filter
            (fun field => !(["a", "b"] : List String).contains field)).map
          (fun field => "t" ++ "." ++ field ++ " = :" ++ field)) ++
        " WHERE " ++
        pyJoin " AND " ((["a", "b"] : List String).map
          (fun field => "t" ++ "." ++ field ++ " = :" ++ field))) ∧
    generate_update_query mAbc ["b", "a"] =
      .ok ("UPDATE " ++ "t" ++ " SET " ++
        pyJoin ", " ((mAbc.fields.filter
            (fun field => !(["a", "b"] : List String).contains field)).map
          (fun field => "t" ++ "." ++ field ++ " = :" ++ field)) ++
        " WHERE " ++
        pyJoin " AND " ((["b", "a"] : List String).map
          (fun field => "t" ++ "." ++ field ++ " = :" ++ field))) ∧
    generate_upsert_query mAbc ["a", "b"] =
      .ok ("\n            MERGE INTO " ++ "t" ++ " USING (SELECT " ++
        pyJoin ", " ((["a", "b"] : List String).map
          (fun field => ":" ++ field ++ " as " ++ field)) ++
        " FROM dual) src\n            ON (" ++
        pyJoin " AND " ((["a", "b"] : List String).map
          (fun field => "t" ++ "." ++ field ++ " = src." ++ field)) ++
        ")\n            WHEN MATCHED THEN\n                UPDATE SET " ++
        pyJoin ", " ((mAbc.fields.filter
            (fun column => !(["a", "b"] : List String).contains column)).map
          (fun column => column ++ " = :" ++ column)) ++
        "\n            WHEN NOT MATCHED THEN\n                INSERT (" ++
        pyJoin ", " mAbc.fields ++
        ")\n                VALUES (" ++
        pyJoin ", " (mAbc.fields.map (fun column => ":" ++ column)) ++
        ")\n            ") ∧
    generate_upsert_query mAbc ["b", "a"] =
      .ok ("\n            MERGE INTO " ++ "t" ++ " USING (SELECT " ++
        pyJoin ", " ((["b", "a"] : List String).map
          (fun field => ":" ++ field ++ " as " ++ field)) ++
        " FROM dual) src\n            ON (" ++
        pyJoin " AND " ((["b", "a"] : List String).map
          (fun field => "t" ++ "." ++ field ++ " = src." ++ field)) ++
        ")\n            WHEN MATCHED THEN\n                UPDATE SET " ++
        pyJoin ", " ((mAbc.fields.filter
            (fun column => !(["a", "b"] : List String).contains column)).map
          (fun column => column ++ " = :" ++ column)) ++
        "\n            WHEN NOT MATCHED THEN\n                INSERT (" ++
        pyJoin ", " mAbc.fields ++
        ")\n                VALUES (" ++
        pyJoin ", " (mAbc.fields.map (fun column => ":" ++ column)) ++
        ")\n            ")) :=
  ⟨by decide, ⟨by decide, by decide⟩,
    C6_declared_order_parts (m := mAbc) ["a", "b"] ["b", "a"] "c" rfl (by decide)
      (by decide) (by decide) (by decide) (by decide) (by decide)⟩

/-- C7 counterexample: `generate_delete_query` does not validate
`using` against the declared fields: `zzz` is not a field of `mIdx`,
yet the call returns SQL containing `zzz` instead of raising (the
package's own test `test_generate_delete_query_multiple_using_fields`
relies on this, passing the undeclared field `age`). -/
theorem C7_counterexample :
    ("zzz" ∉ mIdx.fields) ∧
    generate_delete_query mIdx ["zzz"] = .ok "DELETE FROM t WHERE t.zzz = :zzz" :=
  ⟨by decide, by decide⟩

/-- C7 (amended): with an unknown field in a non-empty `using`, only
`generate_upsert_query` raises the validation error (naming the field
and the model); `generate_delete_query` and `generate_update_query`
instead return SQL whose WHERE clause embeds the unknown field (update
merely omits it from the SET computation). -/
theorem C7_unknown_using_field {m : Model} {t : String} (u : List String) (g f0 : String)
    (ht : m.tableName? = some t) (hne : u ≠ [])
    (hg : g ∈ u) (hgf : g ∉ m.fields)
    (hf0 : f0 ∈ m.fields) (hf0u : f0 ∉ u)
    (hfinu : ∀ k ∈ u, finishOk k = true) :
    (∃ g0, g0 ∈ u ∧ g0 ∉ m.fields ∧
      generate_upsert_query m u =
        .error (.valueError ("The field " ++ "'" ++ g0 ++ "'" ++
          " does not exist in the model " ++ m.name))) ∧
    generate_delete_query m u =
      .ok ("DELETE FROM " ++ t ++ " WHERE " ++
        pyJoin " AND " (u.map (fun field => t ++ "." ++ field ++ " = :" ++ field))) ∧
    generate_update_query m u =
      .ok ("UPDATE " ++ t ++ " SET " ++
        pyJoin ", " ((m.fields.filter (fun field => !u.contains field)).map
          (fun field => t ++ "." ++ field ++ " = :" ++ field)) ++
        " WHERE " ++
        pyJoin " AND " (u.map (fun field => t ++ "." ++ field ++ " = :" ++ field))) :=
  ⟨generate_upsert_query_unknown_exists ht hne ⟨g, hg, hgf⟩,
   generate_delete_query_ok ht hne hfinu,
   generate_update_query_ok ht hne hf0 hf0u hfinu⟩

/-- Witness for the amended C7 at `mIdx` with `using = [zzz]`. -/
theorem C7_witness :
    ("zzz" ∈ (["zzz"] : List String) ∧ "zzz" ∉ mIdx.fields ∧ "id" ∈ mIdx.fields) ∧
    ((∃ g0, g0 ∈ (["zzz"] : List String) ∧ g0 ∉ mIdx.fields ∧
      generate_upsert_query mIdx ["zzz"] =
        .error (.valueError ("The field " ++ "'" ++ g0 ++ "'" ++
          " does not exist in the model " ++ mIdx.name))) ∧
    generate_delete_query mIdx ["zzz"] =
      .ok ("DELETE FROM " ++ "t" ++ " WHERE " ++
        pyJoin " AND " ((["zzz"] : List String).map
          (fun field => "t" ++ "." ++ field ++ " = :" ++ field))) ∧
    generate_update_query mIdx ["zzz"] =
      .ok ("UPDATE " ++ "t" ++ " SET " ++
        pyJoin ", " ((mIdx.fields.filter
            (fun field => !(["zzz"] : List String).contains field)).map
          (fun field => "t" ++ "." ++ field ++ " = :" ++ field)) ++
        " WHERE " ++
        pyJoin " AND " ((["zzz"] : List String).map
          (fun field => "t" ++ "." ++ field ++ " = :" ++ field)))) :=
  ⟨⟨by decide, by decide, by decide⟩,
    C7_unknown_using_field (m := mIdx) ["zzz"] "zzz" "id" rfl (by decide)
      (by decide) (by decide) (by decide) (by decide) (by decide)⟩

end PydanticDBH
